import Mathlib

/-!
Shallow embedding of the FlightCapacity backend (src/backend/src/amadeus.js and
src/backend/src/index.js) in Lean 4, together with theorems settling the frozen
claims about the natural-language specification.

Modelling conventions:
* Network I/O is made explicit: every upstream HTTP interaction is a value of
  `FetchResult` (a 2xx parsed body, a non-2xx status/body pair, or a thrown
  network/timeout error) supplied as a parameter, so each JavaScript method
  becomes a pure function of its inputs and of the fetch outcomes.
* A thrown JavaScript `Error` becomes `Except.error` carrying an `UpErr` value
  that keeps the provider status and body (the JS code renders them into the
  error message string).
* JSON objects become structures; an absent object key becomes `Option.none`.
* Calendar dates are day numbers (`Int`); the JS `Date` day arithmetic of
  `getFareTrend` becomes integer offsets.
* Prices are `Rat`: `parseFloat` of a well-formed decimal string is the
  rational it denotes.
* JS truthiness on query-parameter strings (`!carrier`) is `truthy` below:
  absent (`none`) and the empty string are falsy.
-/

namespace FlightCapacity

/-- Outcome of one upstream HTTP request: a parsed 2xx JSON body, a non-2xx
response (`response.ok` false, the JS code reads the status and the error
body), or a thrown error (network failure, abort/timeout). -/
inductive FetchResult (α : Type) where
  | ok (body : α)
  | httpError (status : Nat) (body : String)
  | netError (msg : String)
deriving Repr, DecidableEq

/-- The error value thrown by a gateway method: either a non-2xx provider
response (the JS message embeds the status and the provider body, e.g.
`Token request failed: 401 - ...`), or a rethrown fetch/parse error. -/
inductive UpErr where
  | http (status : Nat) (body : String)
  | net (msg : String)
deriving Repr, DecidableEq

/-- The `error.message` string observed by the route handler's catch block.
Each amadeus.js method prefixes an operation-specific label; the embedding
keeps the status/body payload that every such message carries. -/
def UpErr.message : UpErr → String
  | .http status body => toString status ++ " - " ++ body
  | .net msg => msg

/-- JS truthiness of an optional query-parameter string: `undefined` and the
empty string are falsy. -/
def truthy : Option String → Bool
  | some s => !s.isEmpty
  | none => false

/-- ASCII uppercasing of one character, as `toUpperCase` acts on the ASCII
codes appearing in carrier/airport strings. -/
def asciiUpper (c : Char) : Char :=
  if c.isLower then Char.ofNat (c.toNat - 32) else c

/-- The JS `s.toUpperCase()` on ASCII strings. -/
def upper (s : String) : String := ⟨s.data.map asciiUpper⟩

/-! ### Token cache (amadeus.js `getAccessToken`, lines 142-177) -/

/-- The mutable pair `this.accessToken` / `this.tokenExpiry` on the client
object; both start as `null`. `tokenExpiry` is a millisecond timestamp. -/
structure TokenState where
  accessToken : Option String
  tokenExpiry : Option Int
deriving Repr, DecidableEq

/-- Outcome of the client-credentials exchange POST: a 2xx body carrying
`access_token` and `expires_in` (seconds), a non-2xx response, or a thrown
fetch error. -/
inductive TokenExchange where
  | ok (accessToken : String) (expiresIn : Int)
  | httpError (status : Nat) (body : String)
  | netError (msg : String)
deriving Repr, DecidableEq

/-- The non-cached path of `getAccessToken`: one exchange is performed (the
`Nat` component counts network requests). On success the token is stored with
`tokenExpiry = now + (expires_in - 300) * 1000`; on failure the error is
rethrown and the held state is left unchanged. -/
def freshToken (st : TokenState) (now : Int) (exchange : TokenExchange) :
    Except UpErr String × TokenState × Nat :=
  match exchange with
  | .ok tok expiresIn =>
      (Except.ok tok,
       { accessToken := some tok, tokenExpiry := some (now + (expiresIn - 300) * 1000) }, 1)
  | .httpError status body => (Except.error (.http status body), st, 1)
  | .netError msg => (Except.error (.net msg), st, 1)

/-- amadeus.js `getAccessToken`: if a token and an expiry are held and
`Date.now() < this.tokenExpiry`, return the held token with no network
request; otherwise perform one client-credentials exchange.
(JS truthiness of a non-empty token string and a nonzero expiry is modelled
by the `Option` being `some`.) -/
def getAccessToken (st : TokenState) (now : Int) (exchange : TokenExchange) :
    Except UpErr String × TokenState × Nat :=
  match st.accessToken, st.tokenExpiry with
  | some tok, some exp =>
      if now < exp then (Except.ok tok, st, 0) else freshToken st now exchange
  | some _, none => freshToken st now exchange
  | none, _ => freshToken st now exchange

/-- The guard `this.accessToken && this.tokenExpiry && Date.now() < this.tokenExpiry`. -/
def tokenValid (st : TokenState) (now : Int) : Bool :=
  match st.accessToken, st.tokenExpiry with
  | some _, some exp => decide (now < exp)
  | _, _ => false

/-! ### Flight-offers payload (shape consumed by amadeus.js) -/

/-- One segment of an itinerary: the fields the code inspects. `number` is the
flight-number JSON string exactly as the provider sent it. -/
structure Segment where
  carrierCode : String
  number : String
deriving Repr, DecidableEq

/-- One itinerary: an ordered list of segments. -/
structure Itinerary where
  segments : List Segment
deriving Repr, DecidableEq

/-- The `price` object of an offer; `total` is absent (`none`) when the
provider omits it, otherwise the rational value `parseFloat` yields on the
decimal string. -/
structure Price where
  total : Option Rat
deriving Repr, DecidableEq

/-- One flight offer: the fields the code inspects (`itineraries`, `price`). -/
structure Offer where
  itineraries : List Itinerary
  price : Option Price
deriving Repr, DecidableEq

/-- The parsed flight-offers response body: its `data` array of offers (other
keys are passed through untouched and are irrelevant to the claims). -/
structure OffersPayload where
  data : List Offer
deriving Repr, DecidableEq

/-! ### Availability search (amadeus.js `getFlightAvailability`, lines 216-267) -/

/-- The segment predicate of the post-filter:
`segment.carrierCode === carrierCode && segment.number === flightNumber`
(strict string equality on both fields). -/
def segMatches (carrierCode flightNumber : String) (s : Segment) : Bool :=
  s.carrierCode == carrierCode && s.number == flightNumber

/-- The offer predicate of the post-filter:
`offer.itineraries?.[0]?.segments?.some(...)` — only the first itinerary is
inspected; an offer with no itineraries is falsy, hence excluded. -/
def offerMatchesFlight (carrierCode flightNumber : String) (o : Offer) : Bool :=
  match o.itineraries.head? with
  | some it => it.segments.any (segMatches carrierCode flightNumber)
  | none => false

/-- amadeus.js `getFlightAvailability` after the fetch: a non-2xx response or
a thrown fetch error is rethrown; on success, when both `carrierCode` and
`flightNumber` are given the `data` array is replaced by its filtered form
(`filteredOffers || []`), otherwise the body is returned unmodified. -/
def getFlightAvailability (resp : FetchResult OffersPayload)
    (carrierCode flightNumber : Option String) : Except UpErr OffersPayload :=
  match resp with
  | .httpError status body => .error (.http status body)
  | .netError msg => .error (.net msg)
  | .ok payload =>
      match carrierCode, flightNumber with
      | some cc, some fn =>
          .ok { payload with data := payload.data.filter (offerMatchesFlight cc fn) }
      | some _, none => .ok payload
      | none, _ => .ok payload

/-! ### Schedule lookup (amadeus.js `getFlightStatus`, lines 480-511) -/

/-- One flight point of the schedule payload; `iataCode` is absent when the
provider omits it. -/
structure FlightPoint where
  iataCode : Option String
deriving Repr, DecidableEq

/-- One element of the schedule `data` array; the handler reads its
`flightPoints`. -/
structure Flight where
  flightPoints : List FlightPoint
deriving Repr, DecidableEq

/-- The parsed schedule response body: its `data` array. -/
structure SchedulePayload where
  data : List Flight
deriving Repr, DecidableEq

/-- amadeus.js `getFlightStatus` after the fetch: a non-2xx response or a
thrown fetch error is rethrown, a 2xx body is returned unmodified. -/
def getFlightStatus (resp : FetchResult SchedulePayload) :
    Except UpErr SchedulePayload :=
  match resp with
  | .ok payload => .ok payload
  | .httpError status body => .error (.http status body)
  | .netError msg => .error (.net msg)

/-! ### Fare trend (amadeus.js `getFareTrend`, lines 405-477) -/

/-- One fare-trend point `{date, price}`; `price` is `none` for JS `null`. -/
structure FareTrendPoint where
  date : Int
  price : Option Rat
deriving Repr, DecidableEq

/-- The 7 sampled dates: the source loop `for (let i = -3; i <= 3; i++)`
pushes the day shifted by i, unrolled here over day numbers. -/
def fareDates (center : Int) : List Int :=
  [center - 3, center - 2, center - 1, center, center + 1, center + 2, center + 3]

/-- The per-segment carrier test of the fare-trend filter:
`offer.itineraries?.[0]?.segments?.some(seg => seg.carrierCode === carrierCode)`. -/
def offerMatchesCarrier (carrierCode : String) (o : Offer) : Bool :=
  match o.itineraries.head? with
  | some it => it.segments.any (fun s => s.carrierCode == carrierCode)
  | none => false

/-- The offers considered for one sampled date: `data.data || []`, filtered by
carrier when `carrierCode` was provided. -/
def fareOffers (carrierCode : Option String) (payload : OffersPayload) : List Offer :=
  match carrierCode with
  | some cc => payload.data.filter (offerMatchesCarrier cc)
  | none => payload.data

/-- `parseFloat(offer.price?.total || 0)`: the total when present, the number 0
when `price` or `total` is absent (`undefined || 0`). -/
def offerPriceTotal (o : Offer) : Rat :=
  (o.price.bind Price.total).getD 0

/-- The per-date body of `getFareTrend`: a non-2xx response returns
`{date, price: null}`; a thrown fetch error (including the 5-second abort) is
caught and returns `{date, price: null}`; on success the price is the parsed
total of the first offer surviving the optional carrier filter, or `null`
when no offer survives. -/
def farePointFor (carrierCode : Option String) (date : Int)
    (resp : FetchResult OffersPayload) : FareTrendPoint :=
  match resp with
  | .httpError _ _ => { date := date, price := none }
  | .netError _ => { date := date, price := none }
  | .ok payload =>
      match (fareOffers carrierCode payload).head? with
      | some o => { date := date, price := some (offerPriceTotal o) }
      | none => { date := date, price := none }

/-- amadeus.js `getFareTrend`: the method first awaits
`this.getAccessToken()` (line 406) — a failed token exchange makes the whole
call reject with that error, before any per-date sampling. On a successful
acquisition it produces one fare point per sampled date, in the order the
dates were generated; `fetchAt` gives the fetch outcome for each date
(`st`/`now`/`exchange` parameterize the token step exactly as in
`getAccessToken`). -/
def getFareTrend (st : TokenState) (now : Int) (exchange : TokenExchange)
    (center : Int) (carrierCode : Option String)
    (fetchAt : Int → FetchResult OffersPayload) : Except UpErr (List FareTrendPoint) :=
  match (getAccessToken st now exchange).1 with
  | .error e => .error e
  | .ok _ => .ok ((fareDates center).map (fun d => farePointFor carrierCode d (fetchAt d)))

/-- A fetch outcome that does not deliver a 2xx body (timeout/abort, network
error, or non-2xx response). -/
def fetchFailed {α : Type} : FetchResult α → Bool
  | .ok _ => false
  | .httpError _ _ => true
  | .netError _ => true

/-! ### Input-validation shapes (index.js regexes)

The format regexes appear in index.js on the `/api/flight-status` handler
(lines 202, 212, 222) and, for dates/airports, on `/api/flights`
(lines 52, 61). They define what the specification calls a well-formed
carrier code, flight number and date. -/

/-- `/^[A-Z]{2}$/i` — exactly two ASCII letters, case-insensitive. -/
def isValidCarrier (s : String) : Bool :=
  s.toList.length == 2 && s.toList.all (fun c => c.isUpper || c.isLower)

/-- `/^\d{1,4}$/` — one to four ASCII digits. -/
def isValidFlightNumber (s : String) : Bool :=
  decide (1 ≤ s.toList.length) && s.toList.length ≤ 4 && s.toList.all Char.isDigit

/-- `/^\d{4}-\d{2}-\d{2}$/` — the YYYY-MM-DD shape. -/
def isValidDate (s : String) : Bool :=
  match s.toList with
  | [y1, y2, y3, y4, h1, m1, m2, h2, d1, d2] =>
      [y1, y2, y3, y4, m1, m2, d1, d2].all Char.isDigit && h1 == '-' && h2 == '-'
  | _ => false

/-! ### The /api/flight-capacity handler (index.js, lines 101-185) -/

/-- The request query string: each parameter is `none` when absent. -/
structure CapacityQuery where
  carrier : Option String
  number : Option String
  date : Option String
  origin : Option String
  destination : Option String
deriving Repr, DecidableEq

/-- The fetch outcomes the handler's two upstream capabilities would produce,
as functions of the (already uppercased) request parameters the code passes:
`scheduleFetch carrierCode flightNumber date` for the schedule-by-flight GET,
`availabilityFetch origin destination date` for the raw flight-offers GET
(before the carrier+number post-filter applied by `getFlightAvailability`). -/
structure Upstream where
  scheduleFetch : String → String → String → FetchResult SchedulePayload
  availabilityFetch : String → String → String → FetchResult OffersPayload

/-- One upstream call issued by the backend, in issue order. The last four
constructors exist for the gateway's enrichment capabilities (airline lookup,
aircraft lookup, delay prediction, fare-trend sampling) defined in amadeus.js;
whether the handler ever issues them is settled by the theorems. -/
inductive UpCall where
  | scheduleCall (carrierCode flightNumber date : String)
  | availabilityCall (origin destination date carrierCode flightNumber : String)
  | airlineCall (airlineCode : String)
  | aircraftCall (aircraftCode : String)
  | delayCall (carrierCode flightNumber : String)
  | fareTrendCall (origin destination date : String)
deriving Repr, DecidableEq

/-- The body of the 200 response object built by `res.json`: the literal in
the source has exactly the keys `success`, `query` (with `flightCode` and
`route` among others), `schedule` and `availability`. The enrichment keys of
the specification's response schema are modelled as options so that their
absence from the emitted object is expressible; the handler under proof sets
a key to `some` only where the source populates it. -/
structure CapacityOkBody where
  flightCode : String
  route : String
  schedule : SchedulePayload
  availability : OffersPayload
  airline : Option Unit
  aircraft : Option Unit
  delayPrediction : Option Unit
  fareTrend : Option (List FareTrendPoint)
deriving Repr, DecidableEq

/-- The handler's possible HTTP replies: 400 (`error` populated), 404
(`error`, optional `message`), 500 from the catch block (`error` and
`message`), or 200 with the assembled body. -/
inductive CapacityResponse where
  | badRequest (error : String)
  | notFound (error : String) (message : Option String)
  | serverError (error : String) (message : String)
  | okResponse (body : CapacityOkBody)
deriving Repr, DecidableEq

/-- The HTTP status code of a reply. -/
def statusOf : CapacityResponse → Nat
  | .badRequest _ => 400
  | .notFound _ _ => 404
  | .serverError _ _ => 500
  | .okResponse _ => 200

/-- The `error` field of a reply (`none` on the 200 path, which has no such
key). -/
def errorField : CapacityResponse → Option String
  | .badRequest e => some e
  | .notFound e _ => some e
  | .serverError e _ => some e
  | .okResponse _ => none

/-- The `Promise.all` stage of the handler (index.js lines 149-175): both
required calls are issued; a rejection of either becomes the catch block's
500 reply carrying that call's error message (array order breaks the tie when
both fail); on success the 200 body is assembled with
`flightCode = (upper carrier)Case() + number` and
`route = (upper origin)Case() + "-" + (upper destination)Case()`. -/
def requiredCalls (env : Upstream) (carrier number date origin destination : String)
    (trace0 : List UpCall) : CapacityResponse × List UpCall :=
  let trace := trace0 ++
    [UpCall.scheduleCall (upper carrier) number date,
     UpCall.availabilityCall (upper origin) (upper destination) date (upper carrier) number]
  match getFlightStatus (env.scheduleFetch (upper carrier) number date),
        getFlightAvailability (env.availabilityFetch (upper origin) (upper destination) date)
          (some (upper carrier)) (some number) with
  | .error e, _ => (.serverError "Failed to fetch flight capacity" e.message, trace)
  | .ok _, .error e => (.serverError "Failed to fetch flight capacity" e.message, trace)
  | .ok scheduleData, .ok availabilityData =>
      (.okResponse
        { flightCode := (upper carrier) ++ number,
          route := (upper origin) ++ "-" ++ (upper destination),
          schedule := scheduleData,
          availability := availabilityData,
          airline := none, aircraft := none,
          delayPrediction := none, fareTrend := none }, trace)

/-- The route-extraction stage (index.js lines 115-144), entered when
`!origin || !destination`: one schedule lookup; `scheduleData.data?.[0]?.flightPoints`
missing or shorter than 2 is the first 404; a missing `iataCode` on the first
or last flight point is the second 404; otherwise `origin`/`destination` are
overwritten with those codes and the required stage runs. -/
def resolveAndRun (env : Upstream) (carrier number date : String) :
    CapacityResponse × List UpCall :=
  let trace0 := [UpCall.scheduleCall (upper carrier) number date]
  match getFlightStatus (env.scheduleFetch (upper carrier) number date) with
  | .error e => (.serverError "Failed to fetch flight capacity" e.message, trace0)
  | .ok scheduleData =>
      match (scheduleData.data.head?).map Flight.flightPoints with
      | none =>
          (.notFound "Could not determine flight route"
            (some "Flight schedule does not contain route information"), trace0)
      | some flightPoints =>
          if flightPoints.length < 2 then
            (.notFound "Could not determine flight route"
              (some "Flight schedule does not contain route information"), trace0)
          else
            match flightPoints.head?.bind FlightPoint.iataCode,
                  flightPoints.getLast?.bind FlightPoint.iataCode with
            | some origin, some destination =>
                if origin.isEmpty || destination.isEmpty then
                  (.notFound "Could not extract route from flight data" none, trace0)
                else
                  requiredCalls env carrier number date origin destination trace0
            | some _, none =>
                (.notFound "Could not extract route from flight data" none, trace0)
            | none, _ =>
                (.notFound "Could not extract route from flight data" none, trace0)

/-- index.js `/api/flight-capacity` handler: reject with 400 when `carrier`,
`number` or `date` is missing (JS-falsy); run route extraction when `origin`
or `destination` is missing; then issue the two required calls and assemble
the reply. The returned list is the trace of upstream calls issued. -/
def flightCapacityHandler (env : Upstream) (q : CapacityQuery) :
    CapacityResponse × List UpCall :=
  if truthy q.carrier && truthy q.number && truthy q.date then
    let carrier := q.carrier.getD ""
    let number := q.number.getD ""
    let date := q.date.getD ""
    if truthy q.origin && truthy q.destination then
      requiredCalls env carrier number date (q.origin.getD "") (q.destination.getD "") []
    else
      resolveAndRun env carrier number date
  else
    (.badRequest "Missing required parameters", [])

/-- An enrichment (best-effort) gateway capability, as opposed to the two
required ones. -/
def isBestEffortCall : UpCall → Bool
  | .airlineCall _ => true
  | .aircraftCall _ => true
  | .delayCall _ _ => true
  | .fareTrendCall _ _ _ => true
  | .scheduleCall _ _ _ => false
  | .availabilityCall _ _ _ _ _ => false

/-- A schedule-by-flight call. -/
def isScheduleCall : UpCall → Bool
  | .scheduleCall _ _ _ => true
  | _ => false

/-! ### Concrete fixtures used by closed theorems and witnesses -/

/-- A three-point schedule (one stopover), as in the specification's route
example. -/
def demoSched : SchedulePayload :=
  { data := [{ flightPoints :=
      [{ iataCode := some "DXB" }, { iataCode := some "DOH" }, { iataCode := some "LHR" }] }] }

/-- One offer whose first itinerary contains the LH400 segment. -/
def demoOffer : Offer :=
  { itineraries := [{ segments := [{ carrierCode := "LH", number := "400" }] }],
    price := some { total := some 100 } }

/-- A one-offer availability payload. -/
def demoAvail : OffersPayload := { data := [demoOffer] }

/-- An environment in which every upstream fetch succeeds. -/
def demoEnv : Upstream :=
  { scheduleFetch := fun _ _ _ => .ok demoSched,
    availabilityFetch := fun _ _ _ => .ok demoAvail }

/-- A cheap offer (total 5) on carrier LH. -/
def offerCheap : Offer :=
  { itineraries := [{ segments := [{ carrierCode := "LH", number := "400" }] }],
    price := some { total := some 5 } }

/-- A dearer offer (total 7) on carrier LH. -/
def offerDear : Offer :=
  { itineraries := [{ segments := [{ carrierCode := "LH", number := "401" }] }],
    price := some { total := some 7 } }

/-- A price-ascending offers payload. -/
def sortedPayload : OffersPayload := { data := [offerCheap, offerDear] }

/-- An offer whose matching segment lies only in the second itinerary. -/
def offerLateMatch : Offer :=
  { itineraries :=
      [{ segments := [{ carrierCode := "XX", number := "999" }] },
       { segments := [{ carrierCode := "LH", number := "400" }] }],
    price := none }

/-- A payload holding only `offerLateMatch`. -/
def lateMatchPayload : OffersPayload := { data := [offerLateMatch] }

/-! ## Helper lemmas -/

lemma isEmpty_false_of_ne {s : String} (h : s ≠ "") : s.isEmpty = false := by
  cases hb : s.isEmpty with
  | false => rfl
  | true => exact absurd ((String.isEmpty_iff s).mp hb) h

lemma truthy_some_of_ne {s : String} (h : s ≠ "") : truthy (some s) = true := by
  simp [truthy, isEmpty_false_of_ne h]

lemma requiredCalls_trace (env : Upstream) (carrier number date origin destination : String)
    (trace0 : List UpCall) :
    (requiredCalls env carrier number date origin destination trace0).2 =
      trace0 ++ [UpCall.scheduleCall (upper carrier) number date,
                 UpCall.availabilityCall (upper origin) (upper destination) date
                   (upper carrier) number] := by
  unfold requiredCalls
  cases getFlightStatus (env.scheduleFetch (upper carrier) number date) with
  | error e => rfl
  | ok sp =>
      cases getFlightAvailability
          (env.availabilityFetch (upper origin) (upper destination) date)
          (some (upper carrier)) (some number) with
      | error e => rfl
      | ok ap => rfl

lemma requiredCalls_ok (env : Upstream) (carrier number date origin destination : String)
    (trace0 : List UpCall) (sp : SchedulePayload) (ap : OffersPayload)
    (hs : getFlightStatus (env.scheduleFetch (upper carrier) number date) = .ok sp)
    (ha : getFlightAvailability (env.availabilityFetch (upper origin) (upper destination) date)
        (some (upper carrier)) (some number) = .ok ap) :
    requiredCalls env carrier number date origin destination trace0 =
      (.okResponse { flightCode := (upper carrier) ++ number,
                     route := (upper origin) ++ "-" ++ (upper destination),
                     schedule := sp, availability := ap,
                     airline := none, aircraft := none,
                     delayPrediction := none, fareTrend := none },
       trace0 ++ [UpCall.scheduleCall (upper carrier) number date,
                  UpCall.availabilityCall (upper origin) (upper destination) date
                    (upper carrier) number]) := by
  unfold requiredCalls
  rw [hs, ha]

lemma requiredCalls_schedErr (env : Upstream)
    (carrier number date origin destination : String) (trace0 : List UpCall) (e : UpErr)
    (hs : getFlightStatus (env.scheduleFetch (upper carrier) number date) = .error e) :
    (requiredCalls env carrier number date origin destination trace0).1 =
      .serverError "Failed to fetch flight capacity" e.message := by
  unfold requiredCalls
  rw [hs]

lemma requiredCalls_availErr (env : Upstream)
    (carrier number date origin destination : String) (trace0 : List UpCall)
    (sp : SchedulePayload) (e : UpErr)
    (hs : getFlightStatus (env.scheduleFetch (upper carrier) number date) = .ok sp)
    (ha : getFlightAvailability (env.availabilityFetch (upper origin) (upper destination) date)
        (some (upper carrier)) (some number) = .error e) :
    (requiredCalls env carrier number date origin destination trace0).1 =
      .serverError "Failed to fetch flight capacity" e.message := by
  unfold requiredCalls
  rw [hs, ha]

lemma handler_present_params (env : Upstream) (carrier number date : String)
    (oq dq : Option String) (hc : carrier ≠ "") (hn : number ≠ "") (hd : date ≠ "") :
    flightCapacityHandler env ⟨some carrier, some number, some date, oq, dq⟩ =
      if truthy oq && truthy dq then
        requiredCalls env carrier number date (oq.getD "") (dq.getD "") []
      else resolveAndRun env carrier number date := by
  simp [flightCapacityHandler, truthy_some_of_ne hc, truthy_some_of_ne hn,
    truthy_some_of_ne hd]

lemma resolveAndRun_schedErr (env : Upstream) (carrier number date : String) (e : UpErr)
    (hs : getFlightStatus (env.scheduleFetch (upper carrier) number date) = .error e) :
    resolveAndRun env carrier number date =
      (.serverError "Failed to fetch flight capacity" e.message,
       [UpCall.scheduleCall (upper carrier) number date]) := by
  unfold resolveAndRun
  rw [hs]

lemma resolveAndRun_route_ok (env : Upstream) (carrier number date : String)
    (sp : SchedulePayload) (ps : List FlightPoint) (origin destination : String)
    (hs : getFlightStatus (env.scheduleFetch (upper carrier) number date) = .ok sp)
    (hps : (sp.data.head?).map Flight.flightPoints = some ps)
    (hlen : ¬ ps.length < 2)
    (ho : ps.head?.bind FlightPoint.iataCode = some origin)
    (hd : ps.getLast?.bind FlightPoint.iataCode = some destination)
    (hone : origin ≠ "") (hdne : destination ≠ "") :
    resolveAndRun env carrier number date =
      requiredCalls env carrier number date origin destination
        [UpCall.scheduleCall (upper carrier) number date] := by
  simp [resolveAndRun, hs, hps, ho, hd, hlen,
    isEmpty_false_of_ne hone, isEmpty_false_of_ne hdne]

lemma resolveAndRun_no_points (env : Upstream) (carrier number date : String)
    (sp : SchedulePayload)
    (hs : getFlightStatus (env.scheduleFetch (upper carrier) number date) = .ok sp)
    (hnone : (sp.data.head?).map Flight.flightPoints = none) :
    resolveAndRun env carrier number date =
      (.notFound "Could not determine flight route"
        (some "Flight schedule does not contain route information"),
       [UpCall.scheduleCall (upper carrier) number date]) := by
  simp [resolveAndRun, hs, hnone]

lemma resolveAndRun_short_points (env : Upstream) (carrier number date : String)
    (sp : SchedulePayload) (ps : List FlightPoint)
    (hs : getFlightStatus (env.scheduleFetch (upper carrier) number date) = .ok sp)
    (hps : (sp.data.head?).map Flight.flightPoints = some ps)
    (hlen : ps.length < 2) :
    resolveAndRun env carrier number date =
      (.notFound "Could not determine flight route"
        (some "Flight schedule does not contain route information"),
       [UpCall.scheduleCall (upper carrier) number date]) := by
  simp [resolveAndRun, hs, hps, hlen]

lemma resolveAndRun_no_iata (env : Upstream) (carrier number date : String)
    (sp : SchedulePayload) (ps : List FlightPoint)
    (hs : getFlightStatus (env.scheduleFetch (upper carrier) number date) = .ok sp)
    (hps : (sp.data.head?).map Flight.flightPoints = some ps)
    (hlen : ¬ ps.length < 2)
    (hbad : ps.head?.bind FlightPoint.iataCode = none ∨
            ps.getLast?.bind FlightPoint.iataCode = none) :
    resolveAndRun env carrier number date =
      (.notFound "Could not extract route from flight data" none,
       [UpCall.scheduleCall (upper carrier) number date]) := by
  rcases hbad with hb | hb
  · simp [resolveAndRun, hs, hps, hlen, hb]
  · cases hfirst : ps.head?.bind FlightPoint.iataCode with
    | none => simp [resolveAndRun, hs, hps, hlen, hfirst]
    | some o => simp [resolveAndRun, hs, hps, hlen, hfirst, hb]

lemma response_cases (r : CapacityResponse) :
    (∃ body, r = .okResponse body) ∨
      (400 ≤ statusOf r ∧ (errorField r).isSome = true) := by
  cases r with
  | okResponse body => exact Or.inl ⟨body, rfl⟩
  | badRequest e => exact Or.inr ⟨by norm_num [statusOf], by simp [errorField]⟩
  | notFound e m => exact Or.inr ⟨by norm_num [statusOf], by simp [errorField]⟩
  | serverError e m => exact Or.inr ⟨by norm_num [statusOf], by simp [errorField]⟩

lemma requiredCalls_ok_inv (env : Upstream) (carrier number date origin destination : String)
    (trace0 : List UpCall) (body : CapacityOkBody)
    (h : (requiredCalls env carrier number date origin destination trace0).1 =
      .okResponse body) :
    getFlightStatus (env.scheduleFetch (upper carrier) number date) = .ok body.schedule ∧
    getFlightAvailability (env.availabilityFetch (upper origin) (upper destination) date)
      (some (upper carrier)) (some number) = .ok body.availability ∧
    body.route = (upper origin) ++ "-" ++ (upper destination) := by
  unfold requiredCalls at h
  cases hs : getFlightStatus (env.scheduleFetch (upper carrier) number date) with
  | error e => rw [hs] at h; simp at h
  | ok sp =>
    cases ha : getFlightAvailability
        (env.availabilityFetch (upper origin) (upper destination) date)
        (some (upper carrier)) (some number) with
    | error e => rw [hs, ha] at h; simp at h
    | ok ap =>
      rw [hs, ha] at h
      simp only [CapacityResponse.okResponse.injEq] at h
      rw [← h]
      exact ⟨rfl, rfl, rfl⟩

lemma resolveAndRun_ok_inv (env : Upstream) (carrier number date : String)
    (body : CapacityOkBody)
    (h : (resolveAndRun env carrier number date).1 = .okResponse body) :
    getFlightStatus (env.scheduleFetch (upper carrier) number date) = .ok body.schedule ∧
    ∃ o d2, getFlightAvailability (env.availabilityFetch o d2 date)
        (some (upper carrier)) (some number) = .ok body.availability := by
  cases hs : getFlightStatus (env.scheduleFetch (upper carrier) number date) with
  | error e =>
      rw [resolveAndRun_schedErr env carrier number date e hs] at h
      simp at h
  | ok sp =>
    cases hps : (sp.data.head?).map Flight.flightPoints with
    | none =>
        rw [resolveAndRun_no_points env carrier number date sp hs hps] at h
        simp at h
    | some ps =>
      by_cases hlen : ps.length < 2
      · rw [resolveAndRun_short_points env carrier number date sp ps hs hps hlen] at h
        simp at h
      · cases ho : ps.head?.bind FlightPoint.iataCode with
        | none =>
            rw [resolveAndRun_no_iata env carrier number date sp ps hs hps hlen
              (Or.inl ho)] at h
            simp at h
        | some origin =>
          cases hd2 : ps.getLast?.bind FlightPoint.iataCode with
          | none =>
              rw [resolveAndRun_no_iata env carrier number date sp ps hs hps hlen
                (Or.inr hd2)] at h
              simp at h
          | some destination =>
            by_cases hone : origin = ""
            · unfold resolveAndRun at h
              simp [hs, hps, ho, hd2, hlen, hone] at h
              rw [if_pos (Or.inl (by decide : "".isEmpty = true))] at h
              simp at h
            · by_cases hdne : destination = ""
              · unfold resolveAndRun at h
                simp [hs, hps, ho, hd2, hlen, isEmpty_false_of_ne hone, hdne] at h
                rw [if_pos (by decide : "".isEmpty = true)] at h
                simp at h
              · rw [resolveAndRun_route_ok env carrier number date sp ps origin destination
                  hs hps hlen ho hd2 hone hdne] at h
                obtain ⟨h1, h2, _⟩ :=
                  requiredCalls_ok_inv env carrier number date origin destination _ body h
                constructor
                · rw [← hs]; exact h1
                · exact ⟨upper origin, upper destination, h2⟩

lemma bool_and_false_of_ne (a b : Bool) (h : a ≠ b) : (a && b) = false := by
  cases a <;> cases b <;> simp_all

lemma farePointFor_date (cc : Option String) (d : Int) (r : FetchResult OffersPayload) :
    (farePointFor cc d r).date = d := by
  cases r with
  | ok p => cases h : (fareOffers cc p).head? <;> simp [farePointFor, h]
  | httpError s b => rfl
  | netError m => rfl

lemma getAccessToken_of_not_valid (st : TokenState) (now : Int) (ex : TokenExchange)
    (h : tokenValid st now = false) :
    getAccessToken st now ex = freshToken st now ex := by
  rcases st with ⟨a, e⟩
  cases a with
  | none => rfl
  | some tok =>
    cases e with
    | none => rfl
    | some exp =>
      have hlt : ¬ now < exp := by simpa [tokenValid] using h
      simp [getAccessToken, hlt]

lemma valid_carrier_ne {s : String} (h : isValidCarrier s = true) : s ≠ "" := by
  rintro rfl
  exact absurd h (by decide)

lemma valid_number_ne {s : String} (h : isValidFlightNumber s = true) : s ≠ "" := by
  rintro rfl
  exact absurd h (by decide)

lemma valid_date_ne {s : String} (h : isValidDate s = true) : s ≠ "" := by
  rintro rfl
  exact absurd h (by decide)

lemma handler_schedErr (env : Upstream) (carrier number date : String)
    (oq dq : Option String) (e : UpErr)
    (hc : carrier ≠ "") (hn : number ≠ "") (hd : date ≠ "")
    (hs : getFlightStatus (env.scheduleFetch (upper carrier) number date) = .error e) :
    (flightCapacityHandler env ⟨some carrier, some number, some date, oq, dq⟩).1 =
      .serverError "Failed to fetch flight capacity" e.message := by
  rw [handler_present_params env carrier number date oq dq hc hn hd]
  by_cases hod : (truthy oq && truthy dq) = true
  · rw [if_pos hod]
    exact requiredCalls_schedErr env carrier number date _ _ [] e hs
  · rw [if_neg hod]
    rw [resolveAndRun_schedErr env carrier number date e hs]

lemma handler_availErr (env : Upstream) (carrier number date o d2 : String)
    (sp : SchedulePayload) (e : UpErr)
    (hc : carrier ≠ "") (hn : number ≠ "") (hd : date ≠ "") (ho : o ≠ "") (hd2 : d2 ≠ "")
    (hs : getFlightStatus (env.scheduleFetch (upper carrier) number date) = .ok sp)
    (ha : getFlightAvailability (env.availabilityFetch (upper o) (upper d2) date)
        (some (upper carrier)) (some number) = .error e) :
    (flightCapacityHandler env ⟨some carrier, some number, some date, some o, some d2⟩).1 =
      .serverError "Failed to fetch flight capacity" e.message := by
  rw [handler_present_params env carrier number date (some o) (some d2) hc hn hd]
  rw [truthy_some_of_ne ho, truthy_some_of_ne hd2]
  rw [if_pos (by decide)]
  exact requiredCalls_availErr env carrier number date o d2 [] sp e hs ha

/-! ## Claim theorems -/

lemma fareSamples_seven (center : Int) (cc : Option String)
    (fetchAt : Int → FetchResult OffersPayload) :
    ((fareDates center).map (fun d => farePointFor cc d (fetchAt d))).length = 7 ∧
    ((fareDates center).map (fun d => farePointFor cc d (fetchAt d))).map
        FareTrendPoint.date =
      [center - 3, center - 2, center - 1, center, center + 1, center + 2, center + 3] ∧
    List.Chain' (· < ·)
      (((fareDates center).map (fun d => farePointFor cc d (fetchAt d))).map
        FareTrendPoint.date) ∧
    (∀ pt ∈ (fareDates center).map (fun d => farePointFor cc d (fetchAt d)),
      fetchFailed (fetchAt pt.date) = true → pt.price = none) := by
  have hmap : ((fareDates center).map (fun d => farePointFor cc d (fetchAt d))).map
      FareTrendPoint.date =
      [center - 3, center - 2, center - 1, center, center + 1, center + 2, center + 3] := by
    simp [fareDates, farePointFor_date]
  refine ⟨?_, hmap, ?_, ?_⟩
  · simp [fareDates]
  · rw [hmap]
    simp only [List.chain'_cons, List.chain'_singleton, and_true]
    omega
  · intro pt hpt hf
    simp only [List.mem_map] at hpt
    obtain ⟨d, hd, rfl⟩ := hpt
    rw [farePointFor_date] at hf
    cases hr : fetchAt d with
    | ok p => rw [hr] at hf; simp [fetchFailed] at hf
    | httpError s b => simp [farePointFor, hr]
    | netError m => simp [farePointFor, hr]

/-- C4 (amended): a failed initial token exchange makes the fare-trend
sampler fail outright with that error, producing no points; once the token
acquisition succeeds, for every pattern of per-date fetch outcomes (timeout,
non-2xx, thrown error) it returns exactly 7 points, whose dates are
centre−3 .. centre+3 inclusive in ascending order, and every date whose
lookup failed still has its point, with price null. -/
theorem C4_fareTrend_seven_points_token (st : TokenState) (now : Int)
    (ex : TokenExchange) (center : Int) (cc : Option String)
    (fetchAt : Int → FetchResult OffersPayload) :
    (∀ tok, (getAccessToken st now ex).1 = Except.ok tok →
      ∃ pts, getFareTrend st now ex center cc fetchAt = Except.ok pts ∧
        pts.length = 7 ∧
        pts.map FareTrendPoint.date =
          [center - 3, center - 2, center - 1, center, center + 1, center + 2, center + 3] ∧
        List.Chain' (· < ·) (pts.map FareTrendPoint.date) ∧
        (∀ pt ∈ pts, fetchFailed (fetchAt pt.date) = true → pt.price = none)) ∧
    (∀ e, (getAccessToken st now ex).1 = Except.error e →
      getFareTrend st now ex center cc fetchAt = Except.error e) := by
  constructor
  · intro tok htok
    obtain ⟨h1, h2, h3, h4⟩ := fareSamples_seven center cc fetchAt
    refine ⟨(fareDates center).map (fun d => farePointFor cc d (fetchAt d)),
      ?_, h1, h2, h3, h4⟩
    simp [getFareTrend, htok]
  · intro e he
    simp [getFareTrend, he]

/-- C4 counterexample: with no held token and a failing client-credentials
exchange, `getFareTrend` rejects outright with the token error — it produces
no points at all, even though every per-date fetch would have succeeded —
refuting the claim that the sampler never fails outright and always returns
7 points. -/
theorem C4_counterexample :
    getFareTrend ⟨none, none⟩ 0 (.httpError 401 "invalid_client") 0 none
      (fun _ => FetchResult.ok demoAvail) =
      Except.error (.http 401 "invalid_client") := rfl

/-- Witness for C4: a held valid token yields the 7 all-null points under an
all-failing per-date pattern, and a failed exchange at empty state propagates
as the overall error, each at concrete inputs. -/
theorem C4_witness :
    (∃ pts, getFareTrend ⟨some "tok", some 1000⟩ 500 (.netError "x") 0 none
        (fun _ => FetchResult.netError "down") = Except.ok pts ∧
      pts.length = 7 ∧ ∀ pt ∈ pts, pt.price = none) ∧
    getFareTrend ⟨none, none⟩ 0 (.netError "refused") 0 none
      (fun _ => FetchResult.netError "down") = Except.error (.net "refused") := by
  constructor
  · obtain ⟨pts, h1, h2, _, _, h5⟩ :=
      (C4_fareTrend_seven_points_token ⟨some "tok", some 1000⟩ 500 (.netError "x") 0 none
        (fun _ => FetchResult.netError "down")).1 "tok" rfl
    exact ⟨pts, h1, h2, fun pt hpt => h5 pt hpt rfl⟩
  · exact (C4_fareTrend_seven_points_token ⟨none, none⟩ 0 (.netError "refused") 0 none
      (fun _ => FetchResult.netError "down")).2 (.net "refused") rfl

/-- C5: a per-date fare lookup that times out, returns non-2xx, or yields an
empty offer set after the optional carrier filter produces a point with price
null (never 0); a successful lookup with a non-empty filtered offer set, on a
payload the provider delivered price-ascending, produces the numeric total of
the cheapest matching offer. -/
theorem C5_fare_point_price (cc : Option String) (d : Int) (s : Nat) (b m : String)
    (payload : OffersPayload) (o : Offer) (rest : List Offer) (t : Rat)
    (hsorted : payload.data.Pairwise (fun a a2 => offerPriceTotal a ≤ offerPriceTotal a2))
    (hhead : fareOffers cc payload = o :: rest)
    (ht : o.price.bind Price.total = some t) :
    farePointFor cc d (.httpError s b) = { date := d, price := none } ∧
    farePointFor cc d (.netError m) = { date := d, price := none } ∧
    (∀ p2 : OffersPayload, fareOffers cc p2 = [] →
      farePointFor cc d (.ok p2) = { date := d, price := none }) ∧
    farePointFor cc d (.ok payload) = { date := d, price := some t } ∧
    (∀ o2 ∈ fareOffers cc payload, t ≤ offerPriceTotal o2) := by
  have htot : offerPriceTotal o = t := by simp [offerPriceTotal, ht]
  have hsf : (fareOffers cc payload).Pairwise
      (fun a a2 => offerPriceTotal a ≤ offerPriceTotal a2) := by
    cases cc with
    | none => simpa [fareOffers] using hsorted
    | some c => simpa [fareOffers] using hsorted.sublist (List.filter_sublist _)
  rw [hhead] at hsf
  have hrest := (List.pairwise_cons.mp hsf).1
  refine ⟨rfl, rfl, ?_, ?_, ?_⟩
  · intro p2 h2
    simp [farePointFor, h2]
  · simp [farePointFor, hhead, htot]
  · intro o2 ho2
    rw [hhead] at ho2
    rcases List.mem_cons.mp ho2 with h | h
    · rw [h, htot]
    · calc t = offerPriceTotal o := htot.symm
        _ ≤ offerPriceTotal o2 := hrest o2 h

/-- Witness for C5 on a concrete price-ascending two-offer payload. -/
theorem C5_witness :
    farePointFor none 0 (.ok sortedPayload) = { date := 0, price := some 5 } ∧
    farePointFor none 0 (.httpError 500 "err") = { date := 0, price := none } := by
  have h := C5_fare_point_price none 0 500 "err" "msg" sortedPayload offerCheap [offerDear] 5
    (by decide) (by rfl) (by rfl)
  exact ⟨h.2.2.2.1, h.1⟩

/-- C7: the token cache returns a held, unexpired token unchanged with zero
network requests; otherwise it performs exactly one client-credentials
exchange, on success storing the token with expiry now + (lifetime − 300 s),
and on a non-2xx exchange raising an error that carries the provider status
and body while returning no token and leaving the held state unchanged. -/
theorem C7_token_cache (st : TokenState) (now : Int) (ex : TokenExchange)
    (tok t b : String) (exp lifetime : Int) (s : Nat) :
    (st.accessToken = some tok → st.tokenExpiry = some exp → now < exp →
        getAccessToken st now ex = (Except.ok tok, st, 0)) ∧
    (tokenValid st now = false →
        (getAccessToken st now ex).2.2 = 1 ∧
        (ex = .ok t lifetime →
          getAccessToken st now ex =
            (Except.ok t,
             { accessToken := some t, tokenExpiry := some (now + (lifetime - 300) * 1000) }, 1)) ∧
        (ex = .httpError s b →
          getAccessToken st now ex = (Except.error (.http s b), st, 1))) := by
  constructor
  · intro h1 h2 h3
    unfold getAccessToken
    rw [h1, h2]
    simp [h3]
  · intro hv
    rw [getAccessToken_of_not_valid st now ex hv]
    refine ⟨?_, ?_, ?_⟩
    · cases ex <;> rfl
    · rintro rfl; rfl
    · rintro rfl; rfl

/-- Witness for C7: a cached hit, a successful refresh, and a failed
exchange, each at concrete inputs. -/
theorem C7_witness :
    getAccessToken ⟨some "tok", some 1000⟩ 500 (.netError "x") =
      (Except.ok "tok", ⟨some "tok", some 1000⟩, 0) ∧
    getAccessToken ⟨none, none⟩ 500 (.ok "new" 1799) =
      (Except.ok "new", ⟨some "new", some (500 + (1799 - 300) * 1000)⟩, 1) ∧
    getAccessToken ⟨none, none⟩ 500 (.httpError 401 "denied") =
      (Except.error (.http 401 "denied"), ⟨none, none⟩, 1) := by
  refine ⟨?_, ?_, ?_⟩
  · exact (C7_token_cache ⟨some "tok", some 1000⟩ 500 (.netError "x")
      "tok" "t" "b" 1000 0 0).1 rfl rfl (by decide)
  · exact ((C7_token_cache ⟨none, none⟩ 500 (.ok "new" 1799)
      "tok" "new" "b" 0 1799 0).2 rfl).2.1 rfl
  · exact ((C7_token_cache ⟨none, none⟩ 500 (.httpError 401 "denied")
      "tok" "t" "denied" 0 0 401).2 rfl).2.2 rfl

/-- C8: with both carrier code and flight number given, availability search
returns exactly the provider offers whose (first) itinerary contains a
segment matching both; an empty filtered sequence is still a successful
(non-error) result, and the capacity endpoint then returns HTTP 200 with an
empty availability sequence. -/
theorem C8_availability_filter_exact (cc fn : String) (payload : OffersPayload) :
    (∃ result : OffersPayload,
        getFlightAvailability (.ok payload) (some cc) (some fn) = .ok result ∧
        ∀ o : Offer, o ∈ result.data ↔ o ∈ payload.data ∧ offerMatchesFlight cc fn o = true) ∧
    (payload.data.filter (offerMatchesFlight cc fn) = [] →
        getFlightAvailability (.ok payload) (some cc) (some fn) =
          .ok { payload with data := [] }) ∧
    (∀ (sp : SchedulePayload) (carrier number date origin destination : String)
        (env : Upstream),
        carrier ≠ "" → number ≠ "" → date ≠ "" → origin ≠ "" → destination ≠ "" →
        env.scheduleFetch (upper carrier) number date = .ok sp →
        env.availabilityFetch (upper origin) (upper destination) date = .ok payload →
        payload.data.filter (offerMatchesFlight (upper carrier) number) = [] →
        ∃ body : CapacityOkBody,
          (flightCapacityHandler env
              ⟨some carrier, some number, some date, some origin, some destination⟩).1 =
            .okResponse body ∧
          body.availability.data = [] ∧
          statusOf (flightCapacityHandler env
              ⟨some carrier, some number, some date, some origin, some destination⟩).1 = 200) := by
  refine ⟨?_, ?_, ?_⟩
  · refine ⟨{ payload with data := payload.data.filter (offerMatchesFlight cc fn) }, rfl, ?_⟩
    intro o
    simp [List.mem_filter]
  · intro h
    simp [getFlightAvailability, h]
  · intro sp carrier number date origin destination env hcne hnne hdne hone hdstne
      hsched havail hfilter
    have ha : getFlightAvailability
        (env.availabilityFetch (upper origin) (upper destination) date)
        (some (upper carrier)) (some number) = .ok { payload with data := [] } := by
      rw [havail]
      simp [getFlightAvailability, hfilter]
    have hs : getFlightStatus (env.scheduleFetch (upper carrier) number date) = .ok sp := by
      rw [hsched]; rfl
    have hh := handler_present_params env carrier number date
      (some origin) (some destination) hcne hnne hdne
    rw [truthy_some_of_ne hone, truthy_some_of_ne hdstne] at hh
    simp only [Bool.and_self, if_true, Option.getD] at hh
    rw [requiredCalls_ok env carrier number date origin destination [] sp
      { payload with data := [] } hs ha] at hh
    refine ⟨{ flightCode := (upper carrier) ++ number,
              route := (upper origin) ++ "-" ++ (upper destination),
              schedule := sp, availability := { payload with data := [] },
              airline := none, aircraft := none,
              delayPrediction := none, fareTrend := none }, ?_, rfl, ?_⟩
    · rw [hh]
    · rw [hh]
      rfl

/-- Witness for C8: an all-success environment whose availability payload has
no offer matching the queried flight, at concrete inputs. -/
theorem C8_witness :
    (∃ result : OffersPayload,
        getFlightAvailability (.ok demoAvail) (some "QF") (some "9") = .ok result ∧
        result.data = []) ∧
    (∃ body : CapacityOkBody,
        (flightCapacityHandler demoEnv
            ⟨some "QF", some "9", some "2025-12-01", some "SYD", some "MEL"⟩).1 =
          .okResponse body ∧ body.availability.data = []) := by
  have h := C8_availability_filter_exact "QF" "9" demoAvail
  constructor
  · exact ⟨{ demoAvail with data := [] }, h.2.1 (by decide), rfl⟩
  · obtain ⟨body, hb, hempty, _⟩ := h.2.2 demoSched "QF" "9" "2025-12-01" "SYD" "MEL"
      demoEnv (by decide) (by decide) (by decide) (by decide) (by decide) rfl rfl (by decide)
    exact ⟨body, hb, hempty⟩

/-- C10: the carrier+flight-number post-filter inspects only the first
itinerary of each offer and compares segment numbers to the query by exact
string equality: an offer whose first itinerary has no matching segment is
excluded even when a later itinerary matches, and a segment whose number
differs from the query as a string (e.g. only by leading zeros) never
matches. -/
theorem C10_filter_first_itinerary_strict (cc fn : String) :
    (∀ o1 o2 : Offer, o1.itineraries.head? = o2.itineraries.head? →
        offerMatchesFlight cc fn o1 = offerMatchesFlight cc fn o2) ∧
    (∀ s : Segment, s.number ≠ fn → segMatches cc fn s = false) ∧
    (∀ (payload : OffersPayload) (o : Offer), o ∈ payload.data →
        offerMatchesFlight cc fn o = false →
        ∀ result : OffersPayload,
          getFlightAvailability (.ok payload) (some cc) (some fn) = .ok result →
          o ∉ result.data) := by
  refine ⟨?_, ?_, ?_⟩
  · intro o1 o2 h
    unfold offerMatchesFlight
    rw [h]
  · intro s h
    have hb : (s.number == fn) = false := by
      simpa using h
    simp [segMatches, hb]
  · intro payload o hmem hfalse result hres
    simp only [getFlightAvailability, Except.ok.injEq] at hres
    intro hcontra
    rw [← hres] at hcontra
    have := (List.mem_filter.mp hcontra).2
    rw [hfalse] at this
    exact absurd this (by simp)

/-- Witness for C10: a leading-zero mismatch with equal numeric values, and
an offer matched only by its second itinerary being excluded, at concrete
inputs. -/
theorem C10_witness :
    segMatches "LH" "7" { carrierCode := "LH", number := "007" } = false ∧
    "007" = "00" ++ "7" ∧ "007" ≠ "7" ∧
    (∀ result : OffersPayload,
        getFlightAvailability (.ok lateMatchPayload) (some "LH") (some "400") = .ok result →
        offerLateMatch ∉ result.data) ∧
    (offerLateMatch.itineraries.get? 1).map Itinerary.segments =
      some [{ carrierCode := "LH", number := "400" }] := by
  refine ⟨?_, by decide, by decide, ?_, by decide⟩
  · exact (C10_filter_first_itinerary_strict "LH" "7").2.1
      { carrierCode := "LH", number := "007" } (by decide)
  · exact fun result hres =>
      (C10_filter_first_itinerary_strict "LH" "400").2.2 lateMatchPayload offerLateMatch
        (by simp [lateMatchPayload]) (by decide) result hres

/-- C1: evaluated at a valid request against an all-success environment, the
capacity handler issues only the schedule lookup (twice, for route
resolution) and the availability search — no airline, aircraft,
delay-prediction or fare-trend call ever appears in the trace — and the 200
body carries no airline, aircraft, delayPrediction or fareTrend field. This
exhibits the code against the claim that the four best-effort calls are
issued and their fields present exactly when they succeed. -/
theorem C1_no_best_effort_calls :
    flightCapacityHandler demoEnv ⟨some "LH", some "400", some "2025-12-01", none, none⟩ =
      (.okResponse { flightCode := "LH400", route := "DXB-LHR",
                     schedule := demoSched, availability := { data := [demoOffer] },
                     airline := none, aircraft := none,
                     delayPrediction := none, fareTrend := none },
       [UpCall.scheduleCall "LH" "400" "2025-12-01",
        UpCall.scheduleCall "LH" "400" "2025-12-01",
        UpCall.availabilityCall "DXB" "LHR" "2025-12-01" "LH" "400"]) ∧
    (flightCapacityHandler demoEnv
        ⟨some "LH", some "400", some "2025-12-01", none, none⟩).2.countP
      isBestEffortCall = 0 ∧
    statusOf (flightCapacityHandler demoEnv
        ⟨some "LH", some "400", some "2025-12-01", none, none⟩).1 = 200 := by
  decide

/-- C2: the capacity handler performs no format validation: a 3-letter
carrier code and a slash-separated date — both invalid per the validation
shapes the code applies on its sibling endpoints — are forwarded to the
upstream schedule lookup and answered with 200, not with 400 before any
upstream call. -/
theorem C2_malformed_params_reach_upstream :
    isValidCarrier "LHX" = false ∧
    isValidDate "2025/12/01" = false ∧
    (statusOf (flightCapacityHandler demoEnv
        ⟨some "LHX", some "400", some "2025-11-10", some "FRA", some "JFK"⟩).1 = 200 ∧
      (flightCapacityHandler demoEnv
        ⟨some "LHX", some "400", some "2025-11-10", some "FRA", some "JFK"⟩).2 ≠ []) ∧
    (statusOf (flightCapacityHandler demoEnv
        ⟨some "LH", some "400", some "2025/12/01", some "FRA", some "JFK"⟩).1 = 200 ∧
      (flightCapacityHandler demoEnv
        ⟨some "LH", some "400", some "2025/12/01", some "FRA", some "JFK"⟩).2 ≠ []) := by
  decide

/-- C3: for every valid (carrier, number, date) triple the endpoint yields
either a 200 whose body carries both required payloads — each the successful
result of the corresponding required call — or an error reply (status ≥ 400)
with the error field populated; a failing required call (schedule or
availability) makes the whole request fail as a 500 carrying that call's
error message, never a partial 200. -/
theorem C3_required_all_or_error (env : Upstream) (carrier number date : String)
    (oq dq : Option String)
    (hc : isValidCarrier carrier = true) (hn : isValidFlightNumber number = true)
    (hd : isValidDate date = true) :
    ((∃ body, (flightCapacityHandler env
        ⟨some carrier, some number, some date, oq, dq⟩).1 = .okResponse body) ∨
      (400 ≤ statusOf (flightCapacityHandler env
          ⟨some carrier, some number, some date, oq, dq⟩).1 ∧
        (errorField (flightCapacityHandler env
          ⟨some carrier, some number, some date, oq, dq⟩).1).isSome = true)) ∧
    (∀ body, (flightCapacityHandler env
        ⟨some carrier, some number, some date, oq, dq⟩).1 = .okResponse body →
        getFlightStatus (env.scheduleFetch (upper carrier) number date) = .ok body.schedule ∧
        ∃ o d2, getFlightAvailability (env.availabilityFetch o d2 date)
            (some (upper carrier)) (some number) = .ok body.availability) ∧
    (∀ e, getFlightStatus (env.scheduleFetch (upper carrier) number date) = .error e →
        (flightCapacityHandler env ⟨some carrier, some number, some date, oq, dq⟩).1 =
          .serverError "Failed to fetch flight capacity" e.message) ∧
    (∀ e sp o d2, oq = some o → dq = some d2 → o ≠ "" → d2 ≠ "" →
        getFlightStatus (env.scheduleFetch (upper carrier) number date) = .ok sp →
        getFlightAvailability (env.availabilityFetch (upper o) (upper d2) date)
          (some (upper carrier)) (some number) = .error e →
        (flightCapacityHandler env ⟨some carrier, some number, some date, oq, dq⟩).1 =
          .serverError "Failed to fetch flight capacity" e.message) := by
  have hcne := valid_carrier_ne hc
  have hnne := valid_number_ne hn
  have hdne := valid_date_ne hd
  refine ⟨response_cases _, ?_, ?_, ?_⟩
  · intro body hok
    rw [handler_present_params env carrier number date oq dq hcne hnne hdne] at hok
    by_cases hod : (truthy oq && truthy dq) = true
    · rw [if_pos hod] at hok
      obtain ⟨h1, h2, _⟩ := requiredCalls_ok_inv env carrier number date _ _ [] body hok
      exact ⟨h1, _, _, h2⟩
    · rw [if_neg hod] at hok
      exact resolveAndRun_ok_inv env carrier number date body hok
  · intro e hs
    exact handler_schedErr env carrier number date oq dq e hcne hnne hdne hs
  · rintro e sp o d2 rfl rfl ho hd2 hs ha
    exact handler_availErr env carrier number date o d2 sp e hcne hnne hdne ho hd2 hs ha

/-- Witness for C3 at a concrete valid triple in an all-success
environment. -/
theorem C3_witness :
    (∃ body, (flightCapacityHandler demoEnv
        ⟨some "LH", some "400", some "2025-12-01", none, none⟩).1 = .okResponse body) ∨
      (400 ≤ statusOf (flightCapacityHandler demoEnv
          ⟨some "LH", some "400", some "2025-12-01", none, none⟩).1 ∧
        (errorField (flightCapacityHandler demoEnv
          ⟨some "LH", some "400", some "2025-12-01", none, none⟩).1).isSome = true) :=
  (C3_required_all_or_error demoEnv "LH" "400" "2025-12-01" none none
    (by decide) (by decide) (by decide)).1

/-- C6: when origin or destination is absent, the resolved origin is the IATA
code of the first flight point of the schedule payload and the resolved
destination that of the last — intermediate points are ignored, as shown by
the availability call issued with exactly those endpoints — and a payload
with no usable flight points, fewer than two of them, or an endpoint lacking
an IATA code yields HTTP 404 with the error field populated. -/
theorem C6_route_resolution (env : Upstream) (carrier number date : String)
    (oq dq : Option String)
    (hc : carrier ≠ "") (hn : number ≠ "") (hd : date ≠ "")
    (hod : (truthy oq && truthy dq) = false) :
    (∀ sp ps origin destination,
        getFlightStatus (env.scheduleFetch (upper carrier) number date) = .ok sp →
        (sp.data.head?).map Flight.flightPoints = some ps →
        ¬ ps.length < 2 →
        ps.head?.bind FlightPoint.iataCode = some origin →
        ps.getLast?.bind FlightPoint.iataCode = some destination →
        origin ≠ "" → destination ≠ "" →
        (flightCapacityHandler env ⟨some carrier, some number, some date, oq, dq⟩).2 =
          [UpCall.scheduleCall (upper carrier) number date,
           UpCall.scheduleCall (upper carrier) number date,
           UpCall.availabilityCall (upper origin) (upper destination) date
             (upper carrier) number]) ∧
    (∀ sp, getFlightStatus (env.scheduleFetch (upper carrier) number date) = .ok sp →
        ((sp.data.head?).map Flight.flightPoints = none ∨
          (∃ ps, (sp.data.head?).map Flight.flightPoints = some ps ∧ ps.length < 2)) →
        statusOf (flightCapacityHandler env
          ⟨some carrier, some number, some date, oq, dq⟩).1 = 404 ∧
        (errorField (flightCapacityHandler env
          ⟨some carrier, some number, some date, oq, dq⟩).1).isSome = true) ∧
    (∀ sp ps, getFlightStatus (env.scheduleFetch (upper carrier) number date) = .ok sp →
        (sp.data.head?).map Flight.flightPoints = some ps →
        ¬ ps.length < 2 →
        (ps.head?.bind FlightPoint.iataCode = none ∨
          ps.getLast?.bind FlightPoint.iataCode = none) →
        statusOf (flightCapacityHandler env
          ⟨some carrier, some number, some date, oq, dq⟩).1 = 404 ∧
        (errorField (flightCapacityHandler env
          ⟨some carrier, some number, some date, oq, dq⟩).1).isSome = true) := by
  have hhandler : flightCapacityHandler env ⟨some carrier, some number, some date, oq, dq⟩ =
      resolveAndRun env carrier number date := by
    rw [handler_present_params env carrier number date oq dq hc hn hd]
    rw [if_neg (by simp [hod])]
  refine ⟨?_, ?_, ?_⟩
  · intro sp ps origin destination hs hps hlen ho hd2 hone hdne
    rw [hhandler, resolveAndRun_route_ok env carrier number date sp ps origin destination
      hs hps hlen ho hd2 hone hdne, requiredCalls_trace]
    rfl
  · intro sp hs hcase
    rw [hhandler]
    rcases hcase with hnone | ⟨ps, hps, hlen⟩
    · rw [resolveAndRun_no_points env carrier number date sp hs hnone]
      exact ⟨rfl, rfl⟩
    · rw [resolveAndRun_short_points env carrier number date sp ps hs hps hlen]
      exact ⟨rfl, rfl⟩
  · intro sp ps hs hps hlen hbad
    rw [hhandler, resolveAndRun_no_iata env carrier number date sp ps hs hps hlen hbad]
    exact ⟨rfl, rfl⟩

/-- Witness for C6 on the DXB-DOH-LHR schedule: the stopover DOH is ignored
and the availability search runs on DXB-LHR. -/
theorem C6_witness :
    (flightCapacityHandler demoEnv
        ⟨some "LH", some "400", some "2025-12-01", none, none⟩).2 =
      [UpCall.scheduleCall "LH" "400" "2025-12-01",
       UpCall.scheduleCall "LH" "400" "2025-12-01",
       UpCall.availabilityCall "DXB" "LHR" "2025-12-01" "LH" "400"] := by
  have h := (C6_route_resolution demoEnv "LH" "400" "2025-12-01" none none
      (by decide) (by decide) (by decide) (by decide)).1 demoSched
    [{ iataCode := some "DXB" }, { iataCode := some "DOH" }, { iataCode := some "LHR" }]
    "DXB" "LHR" rfl rfl (by decide) rfl rfl (by decide) (by decide)
  exact h

/-- C9: when exactly one of origin and destination is supplied, the supplied
value is ignored — route resolution runs, the availability search uses the
first and last flight points of the schedule payload as endpoints, the 200
body's route is built from them — and the schedule endpoint is called twice
(once for resolution, once as a required call). -/
theorem C9_one_endpoint_ignored (env : Upstream) (carrier number date : String)
    (oq dq : Option String) (sp : SchedulePayload) (ps : List FlightPoint)
    (origin destination : String)
    (hc : carrier ≠ "") (hn : number ≠ "") (hd : date ≠ "")
    (hxor : truthy oq ≠ truthy dq)
    (hs : getFlightStatus (env.scheduleFetch (upper carrier) number date) = .ok sp)
    (hps : (sp.data.head?).map Flight.flightPoints = some ps)
    (hlen : ¬ ps.length < 2)
    (ho : ps.head?.bind FlightPoint.iataCode = some origin)
    (hd2 : ps.getLast?.bind FlightPoint.iataCode = some destination)
    (hone : origin ≠ "") (hdne : destination ≠ "") :
    (flightCapacityHandler env ⟨some carrier, some number, some date, oq, dq⟩).2 =
      [UpCall.scheduleCall (upper carrier) number date,
       UpCall.scheduleCall (upper carrier) number date,
       UpCall.availabilityCall (upper origin) (upper destination) date
         (upper carrier) number] ∧
    (flightCapacityHandler env
        ⟨some carrier, some number, some date, oq, dq⟩).2.countP isScheduleCall = 2 ∧
    (∀ body, (flightCapacityHandler env
        ⟨some carrier, some number, some date, oq, dq⟩).1 = .okResponse body →
        body.route = (upper origin) ++ "-" ++ (upper destination)) := by
  have hod : (truthy oq && truthy dq) = false := bool_and_false_of_ne _ _ hxor
  have hhandler : flightCapacityHandler env ⟨some carrier, some number, some date, oq, dq⟩ =
      resolveAndRun env carrier number date := by
    rw [handler_present_params env carrier number date oq dq hc hn hd]
    rw [if_neg (by simp [hod])]
  have hresolve := resolveAndRun_route_ok env carrier number date sp ps origin destination
    hs hps hlen ho hd2 hone hdne
  have htrace : (flightCapacityHandler env
      ⟨some carrier, some number, some date, oq, dq⟩).2 =
      [UpCall.scheduleCall (upper carrier) number date,
       UpCall.scheduleCall (upper carrier) number date,
       UpCall.availabilityCall (upper origin) (upper destination) date
         (upper carrier) number] := by
    rw [hhandler, hresolve, requiredCalls_trace]
    rfl
  refine ⟨htrace, ?_, ?_⟩
  · rw [htrace]
    rfl
  · intro body hok
    rw [hhandler, hresolve] at hok
    exact (requiredCalls_ok_inv env carrier number date origin destination _ body hok).2.2

/-- Witness for C9: origin FRA is supplied (destination absent) and is
ignored — the availability search runs on the resolved DXB-LHR route and the
schedule endpoint is called twice. -/
theorem C9_witness :
    (flightCapacityHandler demoEnv
        ⟨some "LH", some "400", some "2025-12-01", some "FRA", none⟩).2 =
      [UpCall.scheduleCall "LH" "400" "2025-12-01",
       UpCall.scheduleCall "LH" "400" "2025-12-01",
       UpCall.availabilityCall "DXB" "LHR" "2025-12-01" "LH" "400"] ∧
    (flightCapacityHandler demoEnv
        ⟨some "LH", some "400", some "2025-12-01", some "FRA", none⟩).2.countP
      isScheduleCall = 2 := by
  have h := C9_one_endpoint_ignored demoEnv "LH" "400" "2025-12-01" (some "FRA") none
    demoSched
    [{ iataCode := some "DXB" }, { iataCode := some "DOH" }, { iataCode := some "LHR" }]
    "DXB" "LHR" (by decide) (by decide) (by decide) (by decide) rfl rfl (by decide)
    rfl rfl (by decide) (by decide)
  exact ⟨h.1, h.2.1⟩

end FlightCapacity
